import Mathlib

/-!
Verification of `type_conversion_dict` (src/type_conversion_dict/type_conversion_dict.py).

Shallow embedding: Python values are modelled by the mutual inductive family
`PyVal` / `PyList` / `PyDict` (None, ints, strings, lists, plain dicts and
`TypeConversionDict`s).  Floats are outside the model, so `x is y` on modelled
values always implies `type(x) is type(y) and x == y` (no NaN), and the
identity disjunct of the default-match test is subsumed by the structural one.

A `TypeConversionDict` instance is modelled as a `PyDict`, an association list
with (as in CPython) at most one entry per key; lookup (`self[key]`) and
deletion (`del self[key]`) compare keys with Python `==`, modelled by `pyEq`.
Python `==` on dicts is order-insensitive; since CPython dicts never hold two
`==`-equal keys the pairwise comparison below is faithful on dict values that
arise from actual dicts with a consistent ordering, which is the only use the
claims make of container equality.
-/

inductive PyType : Type where
  | noneType
  | intType
  | strType
  | listType
  | dictType
  | tcdictType
deriving DecidableEq

mutual

/-- A Python value: `None`, an int, a str, a list, a plain `dict`, or a
`TypeConversionDict` (a `dict` subclass: `isinstance(·, dict)` holds for both,
but `type(dict(...)) is not type(TypeConversionDict(...))`). -/
inductive PyVal : Type where
  | none : PyVal
  | int : Int → PyVal
  | str : String → PyVal
  | list : PyList → PyVal
  | dict : PyDict → PyVal
  | tcdict : PyDict → PyVal

inductive PyList : Type where
  | nil : PyList
  | cons : PyVal → PyList → PyList

inductive PyDict : Type where
  | nil : PyDict
  | cons : PyVal → PyVal → PyDict → PyDict

end

/-- `type(v)`, at the granularity the code observes (`_type(rv) is _type(default)`). -/
def pyType : PyVal → PyType
  | .none => .noneType
  | .int _ => .intType
  | .str _ => .strType
  | .list _ => .listType
  | .dict _ => .dictType
  | .tcdict _ => .tcdictType

mutual

/-- Python `==` on modelled values.  `dict` and `TypeConversionDict` compare by
contents regardless of which of the two classes each side is. -/
def pyEq : PyVal → PyVal → Bool
  | .none, .none => true
  | .int m, .int n => m == n
  | .str s, .str t => s == t
  | .list xs, .list ys => pyEqL xs ys
  | .dict xs, .dict ys => pyEqD xs ys
  | .dict xs, .tcdict ys => pyEqD xs ys
  | .tcdict xs, .dict ys => pyEqD xs ys
  | .tcdict xs, .tcdict ys => pyEqD xs ys
  | _, _ => false

def pyEqL : PyList → PyList → Bool
  | .nil, .nil => true
  | .cons x xs, .cons y ys => pyEq x y && pyEqL xs ys
  | _, _ => false

def pyEqD : PyDict → PyDict → Bool
  | .nil, .nil => true
  | .cons k v tl, .cons l w tl2 => pyEq k l && pyEq v w && pyEqD tl tl2
  | _, _ => false

end

/-- `v is None` (None is a singleton, so identity to None is being None). -/
def isNone : PyVal → Bool
  | .none => true
  | _ => false

/-- The default-match test of `get`/`pop`:
`rv is default or _type(rv) is _type(default) and rv == default`.
On the modelled (float-free) values the identity disjunct implies the
structural disjunct, so the test reduces to the latter. -/
def defaultMatch (rv d : PyVal) : Bool :=
  pyType rv == pyType d && pyEq rv d

/-- Outcome of calling a caller-supplied conversion callable `type(rv)`:
a value, a raised `ValueError`, or a raised exception of any other class. -/
inductive CRes : Type where
  | ok : PyVal → CRes
  | valueError : CRes
  | otherError : CRes

/-- Exceptions the accessors can propagate.  `requiredNoneError` is the
`ValueError(f"Required key {key} is None")` raised for a required null value;
`convValueError` is a `ValueError` re-raised from the conversion callable;
`convOtherError` is a non-`ValueError` from the conversion callable. -/
inductive PyExc : Type where
  | keyError : PyExc
  | requiredNoneError : PyExc
  | convValueError : PyExc
  | convOtherError : PyExc
  | typeError : PyExc
deriving DecidableEq

/-- `self[key]`: first entry whose key compares `==` to `key`, else `KeyError`
(`Option.none` here).  CPython dicts hold at most one matching entry. -/
def dlookup (key : PyVal) : PyDict → Option PyVal
  | .nil => Option.none
  | .cons k v tl => if pyEq key k then Option.some v else dlookup key tl

/-- `del self[key]`: remove the first entry whose key compares `==` to `key`,
leaving every other entry in place. -/
def derase (key : PyVal) : PyDict → PyDict
  | .nil => .nil
  | .cons k v tl => if pyEq key k then tl else .cons k v (derase key tl)

namespace TypeConversionDict

/-- `TypeConversionDict.get` (source lines 102–193).  The Python signature is
`get(self, key, default=None, *, default_factory=_missing, type=_missing,
required=False)`; here every argument is passed explicitly, with
`Option.none` standing for the `_missing` sentinel of `default_factory` and
`type`, and `PyVal.none` for the `None` default of `default` (in `get` an
explicit `default=None` is indistinguishable from not passing `default`). -/
def get (m : PyDict) (key : PyVal) (default : PyVal)
    (default_factory : Option (Unit → PyVal))
    (type : Option (PyVal → CRes))
    (required : Bool) : Except PyExc PyVal :=
  match dlookup key m with
  | Option.none =>
      -- `except KeyError:` branch, lines 142–154
      if !required then
        if isNone default then
          match default_factory with
          | Option.none => .ok PyVal.none
          | Option.some f => .ok (f ())
        else .ok default
      else .error .keyError
  | Option.some rv =>
      -- lines 156–174: possible early return before conversion
      let early : Option (Except PyExc PyVal) :=
        if isNone default then
          match default_factory with
          | Option.none =>
            if isNone rv then
              if !required then Option.some (.ok PyVal.none)
              else Option.some (.error .requiredNoneError)
            else Option.none
          | Option.some _ => Option.none
        else
          if defaultMatch rv default then Option.some (.ok rv) else Option.none
      match early with
      | Option.some r => r
      | Option.none =>
        -- lines 176–193: type conversion
        match type with
        | Option.none => .ok rv
        | Option.some f =>
          match f rv with
          | .ok rv2 => .ok rv2
          | .valueError =>
            if !required then
              if isNone default then
                match default_factory with
                | Option.none => .ok PyVal.none
                | Option.some g => .ok (g ())
              else .ok default
            else .error .convValueError
          | .otherError => .error .convOtherError

end TypeConversionDict

namespace TypeConversionDict

/-- `TypeConversionDict.pop` (source lines 261–372).  Signature
`pop(self, key, default=_missing, *, default_factory=_missing, type=_missing,
required=_missing)`; `Option.none` models the `_missing` sentinel of
`default`, `default_factory`, `type` and `required` (in `pop`, unlike `get`,
an explicit `default=None` IS distinguishable from no default).  The result is
the returned value or propagated exception, paired with the dictionary
contents after the call; the final `del self[key]` swallows `KeyError`, which
in this sequential model can never fire, since the key was just found. -/
def pop (m : PyDict) (key : PyVal) (default : Option PyVal)
    (default_factory : Option (Unit → PyVal))
    (type : Option (PyVal → CRes))
    (required : Option Bool) : Except PyExc PyVal × PyDict :=
  match dlookup key m with
  | Option.none =>
    -- `except KeyError:` branch, lines 306–323
    match default with
    | Option.none =>
      match default_factory with
      | Option.none =>
        -- no default or default_factory: required defaults to True
        if required.getD true then (.error .keyError, m) else (.ok PyVal.none, m)
      | Option.some f =>
        -- default_factory given: required defaults to False
        if !(required.getD false) then (.ok (f ()), m) else (.error .keyError, m)
    | Option.some d =>
      -- default given: required defaults to False
      if !(required.getD false) then (.ok d, m) else (.error .keyError, m)
  | Option.some rv =>
    -- lines 325–343: possible early return (key NOT removed), skip flag
    let early : Option (Except PyExc PyVal × PyDict) :=
      match default with
      | Option.none =>
        match default_factory with
        | Option.none =>
          if isNone rv then
            if required.getD true then Option.some (.error .requiredNoneError, m)
            else Option.some (.ok PyVal.none, m)
          else Option.none
        | Option.some _ => Option.none
      | Option.some _ => Option.none
    match early with
    | Option.some r => r
    | Option.none =>
      let skip : Bool :=
        match default with
        | Option.some d => defaultMatch rv d
        | Option.none => false
      -- lines 345–365: conversion; on ValueError the key is NOT removed.
      -- Every branch that reaches the trailing `del self[key]` + `return rv`
      -- of the source pairs its value with `derase key m` here.
      match type with
      | Option.some f =>
        if !skip then
          match f rv with
          | .ok rv2 => (.ok rv2, derase key m)
          | .valueError =>
            match default with
            | Option.none =>
              match default_factory with
              | Option.none =>
                if required.getD true then (.error .convValueError, m)
                else (.ok PyVal.none, m)
              | Option.some g =>
                if !(required.getD false) then (.ok (g ()), m)
                else (.error .convValueError, m)
            | Option.some d =>
              if !(required.getD false) then (.ok d, m)
              else (.error .convValueError, m)
          | .otherError => (.error .convOtherError, m)
        else (.ok rv, derase key m)
      | Option.none => (.ok rv, derase key m)

end TypeConversionDict

mutual

/-- `nested_convert` at recursion depth ≥ 1 (source lines 415–424 with
`_depth > 0`): dicts (plain or already-converted) are rebuilt as
`TypeConversionDict`s with recursively converted values and untouched keys,
lists are rebuilt elementwise, and any other value is returned unchanged. -/
def nestedConvertDeep : PyVal → PyVal
  | .dict xs => .tcdict (nestedConvertPairs xs)
  | .tcdict xs => .tcdict (nestedConvertPairs xs)
  | .list vs => .list (nestedConvertVals vs)
  | v => v

def nestedConvertVals : PyList → PyList
  | .nil => .nil
  | .cons v tl => .cons (nestedConvertDeep v) (nestedConvertVals tl)

def nestedConvertPairs : PyDict → PyDict
  | .nil => .nil
  | .cons k v tl => .cons k (nestedConvertDeep v) (nestedConvertPairs tl)

end

/-- `nested_convert` called at the top (`_depth = 0`, source lines 388–424):
only there can the `TypeError("Input must be a dict or a list")` fire.  All
recursive calls pass `_depth + 1 > 0` and so are the total function
`nestedConvertDeep`. -/
def nested_convert (d : PyVal) : Except PyExc PyVal :=
  match d with
  | .dict xs => .ok (.tcdict (nestedConvertPairs xs))
  | .tcdict xs => .ok (.tcdict (nestedConvertPairs xs))
  | .list vs => .ok (.list (nestedConvertVals vs))
  | _ => .error .typeError

/-- A scalar leaf: neither a dict nor a `TypeConversionDict` nor a list, i.e.
exactly the values on which `isinstance(d, dict)` and `isinstance(d, list)`
both fail. -/
def isScalar : PyVal → Bool
  | .none => true
  | .int _ => true
  | .str _ => true
  | _ => false

mutual

/-- No plain (unconverted) `dict` anywhere in value position: the top value is
not a plain dict, and every mapping value and list element satisfies the same
recursively.  (Keys are not converted by `nested_convert`; in Python they are
hashable scalars, never dicts.) -/
def noPlainDict : PyVal → Bool
  | .dict _ => false
  | .tcdict xs => noPlainDictD xs
  | .list vs => noPlainDictL vs
  | _ => true

def noPlainDictL : PyList → Bool
  | .nil => true
  | .cons v tl => noPlainDict v && noPlainDictL tl

def noPlainDictD : PyDict → Bool
  | .nil => true
  | .cons _ v tl => noPlainDict v && noPlainDictD tl

end

mutual

/-- Forget the dict/`TypeConversionDict` distinction everywhere: the content
skeleton of a value.  `nested_convert` preserves it exactly. -/
def toPlain : PyVal → PyVal
  | .dict xs => .dict (toPlainD xs)
  | .tcdict xs => .dict (toPlainD xs)
  | .list vs => .list (toPlainL vs)
  | v => v

def toPlainL : PyList → PyList
  | .nil => .nil
  | .cons v tl => .cons (toPlain v) (toPlainL tl)

def toPlainD : PyDict → PyDict
  | .nil => .nil
  | .cons k v tl => .cons (toPlain k) (toPlain v) (toPlainD tl)

end

/-- The fallback value `get` produces when the key is absent or conversion
failed, in non-required mode (source lines 145–153 and 183–190): the default
when one distinguishable from `None` was passed, else the factory's result,
else `None`. -/
def getFallback (default : PyVal) (default_factory : Option (Unit → PyVal)) : PyVal :=
  if isNone default then
    match default_factory with
    | Option.none => PyVal.none
    | Option.some g => g ()
  else default

/-- C3: for a key `k` absent from `m`, `get` returns `None` with no arguments;
returns the supplied default `D`; invokes a supplied `default_factory` and
returns its result; and with `required=True` raises `KeyError` even when a
default or a default factory was also supplied. -/
theorem get_absent_key (m : PyDict) (k : PyVal) (ty : Option (PyVal → CRes))
    (h : dlookup k m = Option.none) :
    TypeConversionDict.get m k PyVal.none Option.none Option.none false
      = .ok PyVal.none ∧
    (∀ D : PyVal,
      TypeConversionDict.get m k D Option.none Option.none false = .ok D) ∧
    (∀ g : Unit → PyVal,
      TypeConversionDict.get m k PyVal.none (Option.some g) Option.none false
        = .ok (g ())) ∧
    (∀ (D : PyVal) (df : Option (Unit → PyVal)),
      TypeConversionDict.get m k D df ty true = .error .keyError) := by
  refine ⟨?_, ?_, ?_, ?_⟩
  · simp [TypeConversionDict.get, h]
  · intro D
    cases D <;> simp [TypeConversionDict.get, h, isNone]
  · intro g
    simp [TypeConversionDict.get, h, isNone]
  · intro D df
    simp [TypeConversionDict.get, h]

/-- C4: for a key `k` absent from `m`, `pop` with no default, no
default factory and no explicit `required` raises `KeyError` (required-ness
defaults to true); with a default `D` it returns `D`; with a default factory
`g` it returns `g()`; and with `required=False` and no default or factory it
returns `None`.  In every case the dictionary is untouched. -/
theorem pop_absent_key (m : PyDict) (k : PyVal)
    (h : dlookup k m = Option.none) :
    TypeConversionDict.pop m k Option.none Option.none Option.none Option.none
      = (.error .keyError, m) ∧
    (∀ D : PyVal,
      TypeConversionDict.pop m k (Option.some D) Option.none Option.none
        Option.none = (.ok D, m)) ∧
    (∀ g : Unit → PyVal,
      TypeConversionDict.pop m k Option.none (Option.some g) Option.none
        Option.none = (.ok (g ()), m)) ∧
    TypeConversionDict.pop m k Option.none Option.none Option.none
      (Option.some false) = (.ok PyVal.none, m) := by
  refine ⟨?_, ?_, ?_, ?_⟩ <;> simp [TypeConversionDict.pop, h]

/-- C10: for a key `k` stored in `m` with value `None`, `pop` with
`required=False` and no default or default factory returns `None` and does
NOT remove `k`: the dictionary is returned completely unchanged, whatever
conversion function may have been supplied. -/
theorem pop_required_false_none_keeps_key (m : PyDict) (k : PyVal)
    (ty : Option (PyVal → CRes))
    (h : dlookup k m = Option.some PyVal.none) :
    TypeConversionDict.pop m k Option.none Option.none ty (Option.some false)
      = (.ok PyVal.none, m) ∧
    dlookup k (TypeConversionDict.pop m k Option.none Option.none ty
      (Option.some false)).2 = Option.some PyVal.none := by
  refine ⟨?_, ?_⟩ <;> simp [TypeConversionDict.pop, h, isNone]

/-- C7: for a key `k` stored in `m` with value `None`, with no default and no
default factory: `required=True` makes `get` raise the "required key is None"
`ValueError`, which is distinct from the `KeyError` not-found condition;
`required=False` makes `get` return `None`; and in both modes a supplied
conversion function is never invoked (the result does not depend on it). -/
theorem get_required_null (m : PyDict) (k : PyVal) (ty : Option (PyVal → CRes))
    (h : dlookup k m = Option.some PyVal.none) :
    TypeConversionDict.get m k PyVal.none Option.none ty true
      = .error .requiredNoneError ∧
    TypeConversionDict.get m k PyVal.none Option.none ty true
      ≠ .error .keyError ∧
    TypeConversionDict.get m k PyVal.none Option.none ty false
      = .ok PyVal.none ∧
    (∀ (f₁ f₂ : PyVal → CRes) (r : Bool),
      TypeConversionDict.get m k PyVal.none Option.none (Option.some f₁) r
        = TypeConversionDict.get m k PyVal.none Option.none (Option.some f₂) r) := by
  refine ⟨?_, ?_, ?_, ?_⟩
  · simp [TypeConversionDict.get, h, isNone]
  · simp [TypeConversionDict.get, h, isNone]
  · simp [TypeConversionDict.get, h, isNone]
  · intro f₁ f₂ r
    cases r <;> simp [TypeConversionDict.get, h, isNone]

/-- A value default-matches `None` only by being `None` itself. -/
theorem defaultMatch_none_eq (v : PyVal) (h : defaultMatch v PyVal.none = true) :
    v = PyVal.none := by
  cases v <;> simp_all [defaultMatch, pyType]

/-- C5: for a key `k` stored in `m` with value `v` and a literal default `D`
that `v` matches (identity, or same type and `==`), `get` with a conversion
function returns `v` unchanged and never invokes the conversion function (the
result does not depend on it); when a default factory is supplied instead of
a literal default, no bypass happens and the conversion function IS applied
to `v`. -/
theorem get_default_match_bypass (m : PyDict) (k v : PyVal)
    (h : dlookup k m = Option.some v) :
    (∀ (D : PyVal) (f : PyVal → CRes), defaultMatch v D = true →
      TypeConversionDict.get m k D Option.none (Option.some f) false = .ok v) ∧
    (∀ (D : PyVal) (f₁ f₂ : PyVal → CRes), defaultMatch v D = true →
      TypeConversionDict.get m k D Option.none (Option.some f₁) false
        = TypeConversionDict.get m k D Option.none (Option.some f₂) false) ∧
    (∀ (fac : Unit → PyVal) (f : PyVal → CRes) (w : PyVal), f v = CRes.ok w →
      TypeConversionDict.get m k PyVal.none (Option.some fac) (Option.some f)
        false = .ok w) ∧
    (∀ (fac : Unit → PyVal) (f : PyVal → CRes), f v = CRes.otherError →
      TypeConversionDict.get m k PyVal.none (Option.some fac) (Option.some f)
        false = .error .convOtherError) := by
  refine ⟨?_, ?_, ?_, ?_⟩
  · intro D f hm
    cases hD : isNone D
    · simp [TypeConversionDict.get, h, hD, hm]
    · have hv : v = PyVal.none := by
        cases D <;> simp [isNone] at hD
        exact defaultMatch_none_eq v hm
      have hD' : D = PyVal.none := by cases D <;> simp_all [isNone]
      subst hv; subst hD'
      simp [TypeConversionDict.get, h, isNone]
  · intro D f₁ f₂ hm
    cases hD : isNone D
    · simp [TypeConversionDict.get, h, hD, hm]
    · have hv : v = PyVal.none := by
        cases D <;> simp [isNone] at hD
        exact defaultMatch_none_eq v hm
      have hD' : D = PyVal.none := by cases D <;> simp_all [isNone]
      subst hv; subst hD'
      simp [TypeConversionDict.get, h, isNone]
  · intro fac f w hf
    simp [TypeConversionDict.get, h, isNone, hf]
  · intro fac f hf
    simp [TypeConversionDict.get, h, isNone, hf]

/-- C6 counterexample: when the null value is passed as `default` together
with a `default_factory`, the default does NOT win: with the key absent,
`get` invokes the factory and returns its result (`7`), not the supplied
null default.  In `get`'s signature an explicit null default is
indistinguishable from no default at all. -/
theorem get_null_default_loses_to_factory :
    TypeConversionDict.get PyDict.nil (PyVal.str "k") PyVal.none
        (Option.some (fun _ => PyVal.int 7)) Option.none false
      = .ok (PyVal.int 7) ∧
    TypeConversionDict.get PyDict.nil (PyVal.str "k") PyVal.none
        (Option.some (fun _ => PyVal.int 7)) Option.none false
      ≠ .ok PyVal.none := by
  refine ⟨rfl, ?_⟩
  intro hc
  rw [show TypeConversionDict.get PyDict.nil (PyVal.str "k") PyVal.none
        (Option.some (fun _ => PyVal.int 7)) Option.none false
      = .ok (PyVal.int 7) from rfl] at hc
  injection hc with hc2
  exact PyVal.noConfusion hc2

/-- C6 (amended): when a non-null default `D` is passed together with a
default factory, the default wins: whenever a fallback is needed (key absent,
or conversion failed in non-required mode) `get` returns `D`, and the
default factory is never invoked — the result does not depend on the factory
argument at all. -/
theorem get_nonnull_default_wins (m : PyDict) (k D : PyVal)
    (hD : isNone D = false) :
    (∀ (g : Unit → PyVal) (ty : Option (PyVal → CRes)),
      dlookup k m = Option.none →
      TypeConversionDict.get m k D (Option.some g) ty false = .ok D) ∧
    (∀ (g : Unit → PyVal) (f : PyVal → CRes) (v : PyVal),
      dlookup k m = Option.some v → f v = CRes.valueError →
      defaultMatch v D = false →
      TypeConversionDict.get m k D (Option.some g) (Option.some f) false
        = .ok D) ∧
    (∀ (df₁ df₂ : Option (Unit → PyVal)) (ty : Option (PyVal → CRes))
        (r : Bool),
      TypeConversionDict.get m k D df₁ ty r
        = TypeConversionDict.get m k D df₂ ty r) := by
  refine ⟨?_, ?_, ?_⟩
  · intro g ty hl
    simp [TypeConversionDict.get, hl, hD]
  · intro g f v hl hf hdm
    simp [TypeConversionDict.get, hl, hD, hdm, hf]
  · intro df₁ df₂ ty r
    cases hl : dlookup k m with
    | none => simp [TypeConversionDict.get, hl, hD]
    | some rv =>
      cases hdm : defaultMatch rv D with
      | true => simp [TypeConversionDict.get, hl, hD, hdm]
      | false =>
        cases ty with
        | none => simp [TypeConversionDict.get, hl, hD, hdm]
        | some f =>
          cases hf : f rv <;>
            simp [TypeConversionDict.get, hl, hD, hdm, hf]

/-- C2: for a key `k` stored in `m` with value `v` and a conversion function
`f` that is not bypassed (the value is not an early-returned required/None
case and does not match a supplied non-null default): if `f v` succeeds `get`
returns the converted value; if `f` raises a `ValueError` then with
`required=True` it is re-raised and with `required=False` the fallback value
(default if distinguishable from `None`, else factory result, else `None`) is
returned; any non-`ValueError` raised by `f` propagates uncaught in either
mode. -/
theorem get_conversion_outcomes (m : PyDict) (k v D : PyVal)
    (df : Option (Unit → PyVal)) (req : Bool) (f : PyVal → CRes)
    (h : dlookup k m = Option.some v)
    (h₁ : isNone D = true → df = Option.none → isNone v = false)
    (h₂ : isNone D = false → defaultMatch v D = false) :
    (∀ w : PyVal, f v = CRes.ok w →
      TypeConversionDict.get m k D df (Option.some f) req = .ok w) ∧
    (f v = CRes.valueError →
      TypeConversionDict.get m k D df (Option.some f) true
        = .error .convValueError) ∧
    (f v = CRes.valueError →
      TypeConversionDict.get m k D df (Option.some f) false
        = .ok (getFallback D df)) ∧
    (f v = CRes.otherError →
      TypeConversionDict.get m k D df (Option.some f) req
        = .error .convOtherError) := by
  have reach : ∀ (r : Bool),
      TypeConversionDict.get m k D df (Option.some f) r
        = (match f v with
           | CRes.ok rv2 => .ok rv2
           | CRes.valueError =>
             if !r then .ok (getFallback D df) else .error .convValueError
           | CRes.otherError => .error .convOtherError) := by
    intro r
    cases hD : isNone D with
    | true =>
      cases df with
      | none =>
        have hv := h₁ hD rfl
        simp [TypeConversionDict.get, h, hD, hv, getFallback]
      | some g =>
        simp [TypeConversionDict.get, h, hD, getFallback]
    | false =>
      have hdm := h₂ hD
      simp [TypeConversionDict.get, h, hD, hdm, getFallback]
  refine ⟨?_, ?_, ?_, ?_⟩
  · intro w hw
    rw [reach req, hw]
  · intro hf
    rw [reach true, hf]
    rfl
  · intro hf
    rw [reach false, hf]
    rfl
  · intro hf
    rw [reach req, hf]

/-- C1 counterexample: a conversion function that raises `ValueError` on
every value, applied via `pop` with a default equal to the stored value:
the default-match bypass skips conversion entirely, the call succeeds and
the key IS removed, so the stored value is not preserved. -/
theorem pop_removes_key_despite_failing_converter :
    (fun _ => CRes.valueError) (PyVal.int 1) = CRes.valueError ∧
    TypeConversionDict.pop
        (PyDict.cons (PyVal.str "k") (PyVal.int 1) PyDict.nil)
        (PyVal.str "k") (Option.some (PyVal.int 1)) Option.none
        (Option.some (fun _ => CRes.valueError)) Option.none
      = (.ok (PyVal.int 1), PyDict.nil) ∧
    dlookup (PyVal.str "k") PyDict.nil = Option.none := by
  exact ⟨rfl, rfl, rfl⟩

/-- C1 (amended): when a conversion function `f` raising `ValueError` on the
stored value `v` is actually invoked — i.e. `v` does not match a supplied
default, which would bypass conversion (and remove the key) — `pop` leaves
the dictionary completely unchanged, `k` still bound to `v`, whatever
`default`, `default_factory` and `required` arguments are passed; an
immediately repeated identical call therefore returns the identical result
and again leaves the dictionary unchanged. -/
theorem pop_failed_conversion_preserves_mapping (m : PyDict) (k v : PyVal)
    (default : Option PyVal) (df : Option (Unit → PyVal))
    (req : Option Bool) (f : PyVal → CRes)
    (h : dlookup k m = Option.some v)
    (hf : f v = CRes.valueError)
    (hnb : ∀ d, default = Option.some d → defaultMatch v d = false) :
    (TypeConversionDict.pop m k default df (Option.some f) req).2 = m ∧
    dlookup k (TypeConversionDict.pop m k default df (Option.some f) req).2
      = Option.some v ∧
    TypeConversionDict.pop
        (TypeConversionDict.pop m k default df (Option.some f) req).2
        k default df (Option.some f) req
      = TypeConversionDict.pop m k default df (Option.some f) req := by
  have hsnd : (TypeConversionDict.pop m k default df (Option.some f) req).2
      = m := by
    cases default with
    | some d =>
      have hdm := hnb d rfl
      simp [TypeConversionDict.pop, h, hdm, hf, apply_ite]
    | none =>
      cases df with
      | none =>
        cases hnv : isNone v with
        | false => simp [TypeConversionDict.pop, h, hnv, hf, apply_ite]
        | true =>
          cases hr : req.getD true <;>
            simp [TypeConversionDict.pop, h, hnv, hf, hr, apply_ite]
      | some g =>
        simp [TypeConversionDict.pop, h, hf, apply_ite]
  refine ⟨hsnd, ?_, ?_⟩
  · rw [hsnd]; exact h
  · rw [hsnd]

/-- C8: for a key `k` stored in `m` with value `v`, whenever `pop` resolves
successfully through a found-key path — the default-match bypass, no
conversion function at all, or a successful conversion — the returned
dictionary is `derase k m`: the first entry whose key compares equal to `k`
is removed (only after all validation and conversion has succeeded) and
every other entry is kept in place. -/
theorem pop_success_removes_key (m : PyDict) (k v : PyVal)
    (h : dlookup k m = Option.some v) :
    (∀ (d : PyVal) (df : Option (Unit → PyVal)) (ty : Option (PyVal → CRes))
        (req : Option Bool), defaultMatch v d = true →
      TypeConversionDict.pop m k (Option.some d) df ty req
        = (.ok v, derase k m)) ∧
    (∀ (default : Option PyVal) (df : Option (Unit → PyVal))
        (req : Option Bool),
      (default = Option.none → df = Option.none → isNone v = false) →
      TypeConversionDict.pop m k default df Option.none req
        = (.ok v, derase k m)) ∧
    (∀ (default : Option PyVal) (df : Option (Unit → PyVal))
        (req : Option Bool) (f : PyVal → CRes) (w : PyVal),
      f v = CRes.ok w →
      (∀ d, default = Option.some d → defaultMatch v d = false) →
      (default = Option.none → df = Option.none → isNone v = false) →
      TypeConversionDict.pop m k default df (Option.some f) req
        = (.ok w, derase k m)) := by
  refine ⟨?_, ?_, ?_⟩
  · intro d df ty req hdm
    cases ty <;> simp [TypeConversionDict.pop, h, hdm]
  · intro default df req hne
    cases default with
    | some d => simp [TypeConversionDict.pop, h]
    | none =>
      cases df with
      | none =>
        have hnv := hne rfl rfl
        simp [TypeConversionDict.pop, h, hnv]
      | some g => simp [TypeConversionDict.pop, h]
  · intro default df req f w hw hnb hne
    cases default with
    | some d =>
      have hdm := hnb d rfl
      simp [TypeConversionDict.pop, h, hdm, hw]
    | none =>
      cases df with
      | none =>
        have hnv := hne rfl rfl
        simp [TypeConversionDict.pop, h, hnv, hw]
      | some g => simp [TypeConversionDict.pop, h, hw]

mutual

/-- Deep conversion leaves no plain (unconverted) dict in any value position. -/
theorem noPlainDict_deep : ∀ v : PyVal,
    noPlainDict (nestedConvertDeep v) = true
  | .none => rfl
  | .int _ => rfl
  | .str _ => rfl
  | .list vs => by
    simp [nestedConvertDeep, noPlainDict, noPlainDict_deepL vs]
  | .dict xs => by
    simp [nestedConvertDeep, noPlainDict, noPlainDict_deepD xs]
  | .tcdict xs => by
    simp [nestedConvertDeep, noPlainDict, noPlainDict_deepD xs]

theorem noPlainDict_deepL : ∀ vs : PyList,
    noPlainDictL (nestedConvertVals vs) = true
  | .nil => rfl
  | .cons v tl => by
    simp [nestedConvertVals, noPlainDictL, noPlainDict_deep v,
      noPlainDict_deepL tl]

theorem noPlainDict_deepD : ∀ xs : PyDict,
    noPlainDictD (nestedConvertPairs xs) = true
  | .nil => rfl
  | .cons k v tl => by
    simp [nestedConvertPairs, noPlainDictD, noPlainDict_deep v,
      noPlainDict_deepD tl]

end

mutual

/-- Deep conversion changes only the dict/`TypeConversionDict` wrapper: the
content skeleton of the value is preserved exactly. -/
theorem toPlain_deep : ∀ v : PyVal,
    toPlain (nestedConvertDeep v) = toPlain v
  | .none => rfl
  | .int _ => rfl
  | .str _ => rfl
  | .list vs => by
    simp [nestedConvertDeep, toPlain, toPlain_deepL vs]
  | .dict xs => by
    simp [nestedConvertDeep, toPlain, toPlain_deepD xs]
  | .tcdict xs => by
    simp [nestedConvertDeep, toPlain, toPlain_deepD xs]

theorem toPlain_deepL : ∀ vs : PyList,
    toPlainL (nestedConvertVals vs) = toPlainL vs
  | .nil => rfl
  | .cons v tl => by
    simp [nestedConvertVals, toPlainL, toPlain_deep v, toPlain_deepL tl]

theorem toPlain_deepD : ∀ xs : PyDict,
    toPlainD (nestedConvertPairs xs) = toPlainD xs
  | .nil => rfl
  | .cons k v tl => by
    simp [nestedConvertPairs, toPlainD, toPlain_deep v, toPlain_deepD tl]

end

/-- C9: `nested_convert` on a top-level dict (plain or converted) rebuilds it
as a `TypeConversionDict` with recursively converted values, and on a
top-level list rebuilds it elementwise; any other (scalar) top-level value
fails with `TypeError`, while at recursion depth > 0 a scalar leaf is
returned unchanged.  The rebuilt structure contains no plain dict in any
value position at any depth (every mapping became a `TypeConversionDict`)
and its content skeleton is preserved exactly. -/
theorem nested_convert_spec :
    (∀ xs : PyDict, nested_convert (PyVal.dict xs)
      = .ok (PyVal.tcdict (nestedConvertPairs xs))) ∧
    (∀ xs : PyDict, nested_convert (PyVal.tcdict xs)
      = .ok (PyVal.tcdict (nestedConvertPairs xs))) ∧
    (∀ vs : PyList, nested_convert (PyVal.list vs)
      = .ok (PyVal.list (nestedConvertVals vs))) ∧
    (∀ v : PyVal, isScalar v = true →
      nested_convert v = .error .typeError) ∧
    (∀ v : PyVal, isScalar v = true → nestedConvertDeep v = v) ∧
    (∀ v : PyVal, noPlainDict (nestedConvertDeep v) = true) ∧
    (∀ v : PyVal, toPlain (nestedConvertDeep v) = toPlain v) := by
  refine ⟨fun xs => rfl, fun xs => rfl, fun vs => rfl, ?_, ?_, noPlainDict_deep,
    toPlain_deep⟩
  · intro v hv
    cases v <;> simp [isScalar] at hv <;> rfl
  · intro v hv
    cases v <;> simp [isScalar] at hv <;> rfl

/-- Witness for C1 (amended), at a one-entry dictionary with an
always-failing converter and no default: the dictionary is unchanged. -/
theorem pop_failed_conversion_preserves_mapping_witness :
    dlookup (PyVal.str "k")
        (PyDict.cons (PyVal.str "k") (PyVal.str "x") PyDict.nil)
      = Option.some (PyVal.str "x") ∧
    (TypeConversionDict.pop
        (PyDict.cons (PyVal.str "k") (PyVal.str "x") PyDict.nil)
        (PyVal.str "k") Option.none Option.none
        (Option.some (fun _ => CRes.valueError)) Option.none).2
      = PyDict.cons (PyVal.str "k") (PyVal.str "x") PyDict.nil :=
  ⟨rfl,
    (pop_failed_conversion_preserves_mapping
      (PyDict.cons (PyVal.str "k") (PyVal.str "x") PyDict.nil)
      (PyVal.str "k") (PyVal.str "x") Option.none Option.none Option.none
      (fun _ => CRes.valueError) rfl rfl
      (fun _ hd => Option.noConfusion hd)).1⟩

/-- Witness for C2, converting the stored string `"42"` to the int `42`. -/
theorem get_conversion_outcomes_witness :
    TypeConversionDict.get
        (PyDict.cons (PyVal.str "x") (PyVal.str "42") PyDict.nil)
        (PyVal.str "x") PyVal.none Option.none
        (Option.some (fun _ => CRes.ok (PyVal.int 42))) false
      = .ok (PyVal.int 42) :=
  (get_conversion_outcomes
    (PyDict.cons (PyVal.str "x") (PyVal.str "42") PyDict.nil)
    (PyVal.str "x") (PyVal.str "42") PyVal.none Option.none false
    (fun _ => CRes.ok (PyVal.int 42)) rfl (fun _ _ => rfl)
    (fun hc => Bool.noConfusion hc)).1 (PyVal.int 42) rfl

/-- Witness for C3, at the empty dictionary with default `5`. -/
theorem get_absent_key_witness :
    dlookup (PyVal.str "a") PyDict.nil = Option.none ∧
    TypeConversionDict.get PyDict.nil (PyVal.str "a") (PyVal.int 5)
        Option.none Option.none false = .ok (PyVal.int 5) :=
  ⟨rfl, (get_absent_key PyDict.nil (PyVal.str "a") Option.none rfl).2.1
    (PyVal.int 5)⟩

/-- Witness for C4, at the empty dictionary: bare `pop` raises `KeyError`. -/
theorem pop_absent_key_witness :
    TypeConversionDict.pop PyDict.nil (PyVal.str "a") Option.none Option.none
        Option.none Option.none = (.error .keyError, PyDict.nil) :=
  (pop_absent_key PyDict.nil (PyVal.str "a") rfl).1

/-- Witness for C5: stored value `1` matches default `1`, conversion with an
always-failing converter is bypassed and `1` is returned. -/
theorem get_default_match_bypass_witness :
    TypeConversionDict.get
        (PyDict.cons (PyVal.str "k") (PyVal.int 1) PyDict.nil)
        (PyVal.str "k") (PyVal.int 1) Option.none
        (Option.some (fun _ => CRes.valueError)) false
      = .ok (PyVal.int 1) :=
  (get_default_match_bypass
    (PyDict.cons (PyVal.str "k") (PyVal.int 1) PyDict.nil)
    (PyVal.str "k") (PyVal.int 1) rfl).1 (PyVal.int 1)
    (fun _ => CRes.valueError) rfl

/-- Witness for C6 (amended): non-null default `-1` wins over a factory
returning `9` when the key is absent. -/
theorem get_nonnull_default_wins_witness :
    TypeConversionDict.get PyDict.nil (PyVal.str "k") (PyVal.int (-1))
        (Option.some (fun _ => PyVal.int 9)) Option.none false
      = .ok (PyVal.int (-1)) :=
  (get_nonnull_default_wins PyDict.nil (PyVal.str "k") (PyVal.int (-1))
    rfl).1 (fun _ => PyVal.int 9) Option.none rfl

/-- Witness for C7: required `get` of a stored `None` raises the
"required key is None" `ValueError`. -/
theorem get_required_null_witness :
    TypeConversionDict.get
        (PyDict.cons (PyVal.str "k") PyVal.none PyDict.nil)
        (PyVal.str "k") PyVal.none Option.none Option.none true
      = .error .requiredNoneError :=
  (get_required_null (PyDict.cons (PyVal.str "k") PyVal.none PyDict.nil)
    (PyVal.str "k") Option.none rfl).1

/-- Witness for C8: `pop` with a non-matching default and no converter
returns the stored value and removes the entry. -/
theorem pop_success_removes_key_witness :
    TypeConversionDict.pop
        (PyDict.cons (PyVal.str "k") (PyVal.str "1") PyDict.nil)
        (PyVal.str "k") (Option.some (PyVal.int 0)) Option.none Option.none
        Option.none
      = (.ok (PyVal.str "1"), PyDict.nil) :=
  (pop_success_removes_key
    (PyDict.cons (PyVal.str "k") (PyVal.str "1") PyDict.nil)
    (PyVal.str "k") (PyVal.str "1") rfl).2.1 (Option.some (PyVal.int 0))
    Option.none Option.none (fun h₁ => Option.noConfusion h₁)

/-- Witness for C9: a scalar at top level is a `TypeError`. -/
theorem nested_convert_spec_witness :
    nested_convert (PyVal.int 42) = .error .typeError :=
  nested_convert_spec.2.2.2.1 (PyVal.int 42) rfl

/-- Witness for C10: popping a stored `None` with `required=False` returns
`None` and leaves the one-entry dictionary intact. -/
theorem pop_required_false_none_keeps_key_witness :
    TypeConversionDict.pop
        (PyDict.cons (PyVal.str "k") PyVal.none PyDict.nil)
        (PyVal.str "k") Option.none Option.none Option.none
        (Option.some false)
      = (.ok PyVal.none,
         PyDict.cons (PyVal.str "k") PyVal.none PyDict.nil) :=
  (pop_required_false_none_keeps_key
    (PyDict.cons (PyVal.str "k") PyVal.none PyDict.nil)
    (PyVal.str "k") Option.none rfl).1
